import Mathlib

/-!
Shallow embedding of the rustwrk HTTP load generator
(src/main.rs, src/worker.rs, src/stats.rs).

u64 counters are modelled as `Nat`: every counter counts request
attempts or byte totals of one bounded run, far below 2^64, so wrapping
never matters for the verified properties.  The one place where the
source performs an explicit narrowing cast —
`(latency.as_nanos() / requests as u128) as u64` in `Worker::run` —
keeps its truncation as an explicit `% 2^64`.
Durations are modelled by their nanosecond count as `Nat`.
-/

namespace RustWrk

def U64_MOD : Nat := 2 ^ 64

/-- Result of `body.collect().await` in `Worker::run`:
either the collected byte length, or a body-drain error. -/
inductive BodyResult
  | collected (len : Nat)
  | drainError
  deriving Repr, DecidableEq

/-- Byte count the driver extracts from a body-collect result:
`Ok(collected) => collected.to_bytes().len(), Err(_) => 0`. -/
def BodyResult.byteLen : BodyResult → Nat
  | .collected n => n
  | .drainError => 0

/-- The scrutinee of the `match time::timeout(timeout, client.request(req)).await`
in the driver loop, together with the latency measured by `start.elapsed()`
at the point the source measures it (after the body drain for responses). -/
inductive AttemptResult
  | response (status : Nat) (body : BodyResult) (latencyNanos : Nat)
  | transportError (latencyNanos : Nat)
  | timeoutFired (latencyNanos : Nat)
  deriving Repr, DecidableEq

/-- `hyper::StatusCode::is_success`: status in [200, 300). -/
def isSuccessStatus (status : Nat) : Bool :=
  decide (200 ≤ status ∧ status < 300)

/-- Whether the attempt classifies as the `Success` outcome. -/
def AttemptResult.isSuccess : AttemptResult → Bool
  | .response status _ _ => isSuccessStatus status
  | .transportError _ => false
  | .timeoutFired _ => false

/-- A driver's local tally: the five mutable locals of the spawned task in
`Worker::run` (`requests`, `successes`, `errors`, `total_bytes`,
`total_latency`). -/
structure Tally where
  requests : Nat
  successes : Nat
  errors : Nat
  total_bytes : Nat
  total_latencyNanos : Nat
  deriving Repr, DecidableEq

def zeroTally : Tally := ⟨0, 0, 0, 0, 0⟩

/-- One iteration of the driver loop body (`worker.rs` lines 58–95):
`requests += 1` before the match, then per-branch tally updates.
The non-2xx branch updates only `errors`; the source does not add the
measured latency there, while both error branches below do. -/
def updateTally (t : Tally) (r : AttemptResult) : Tally :=
  let t := { t with requests := t.requests + 1 }
  match r with
  | .response status body lat =>
      if isSuccessStatus status then
        { t with successes := t.successes + 1,
                 total_bytes := t.total_bytes + body.byteLen,
                 total_latencyNanos := t.total_latencyNanos + lat }
      else
        { t with errors := t.errors + 1 }
  | .transportError lat =>
      { t with errors := t.errors + 1,
               total_latencyNanos := t.total_latencyNanos + lat }
  | .timeoutFired lat =>
      { t with errors := t.errors + 1,
               total_latencyNanos := t.total_latencyNanos + lat }

/-- The tally a driver returns after processing the given sequence of
attempt results (the deadline admits exactly this many iterations). -/
def runDriver (rs : List AttemptResult) : Tally :=
  rs.foldl updateTally zeroTally

/-- The tally values visible at the task suspension points inside each
attempt (the `client.request` await and the `body.collect` await): the
source has already executed `requests += 1` but not yet the outcome
branch, so both awaits of one attempt see the same pending tally. -/
def yieldStates : Tally → List AttemptResult → List Tally
  | _, [] => []
  | t, r :: rs =>
      { t with requests := t.requests + 1 } :: yieldStates (updateTally t r) rs

/-! ### Statistics aggregator (src/stats.rs) -/

/-- The aggregator state: the four `AtomicU64` counters of `AtomicStats`
plus the HDR histogram, modelled as the list of recorded microsecond
values (the histogram built by `Histogram::new(3)` auto-resizes, and a
failed `record` is dropped by `unwrap_or_default` anyway, so recording
always just adds the value). -/
structure Statistics where
  requests : Nat
  success : Nat
  errors : Nat
  bytes : Nat
  histogram : List Nat
  deriving Repr, DecidableEq

/-- `Statistics::new()` (the `start_time` field is carried separately as
the elapsed-seconds argument of `print_stats`). -/
def Statistics.new : Statistics := ⟨0, 0, 0, 0, []⟩

/-- `Statistics::record_request` (stats.rs lines 29–39).  The latency
argument is the `Duration` in nanoseconds; `latency.as_micros() as u64`
is its microsecond count truncated to 64 bits. -/
def record_request (s : Statistics) (success : Bool) (bytes : Nat)
    (latencyNanos : Nat) : Statistics :=
  let s := { s with requests := s.requests + 1 }
  if success then
    { s with success := s.success + 1,
             bytes := s.bytes + bytes,
             histogram := s.histogram ++ [latencyNanos / 1000 % U64_MOD] }
  else
    { s with errors := s.errors + 1 }

/-- An IEEE double as far as the report needs it: a finite value
(rounding ignored — the claims only distinguish zero, nonzero and
non-numeric), positive infinity, or NaN. -/
inductive FVal
  | num (q : ℚ)
  | inf
  | nan
  deriving Repr, DecidableEq

/-- Float division: `0.0 / 0.0` is NaN, `x / 0.0` with `x > 0` is
infinity, otherwise the exact quotient. -/
def fdiv (a b : ℚ) : FVal :=
  if b = 0 then (if a = 0 then .nan else .inf) else .num (a / b)

/-- Multiplication of a float value by a finite positive constant
(`* 100.0`, `/ 1024.0 / 1024.0`): NaN and infinity are absorbing. -/
def FVal.scale : FVal → ℚ → FVal
  | .num q, c => .num (q * c)
  | .inf, _ => .inf
  | .nan, _ => .nan

/-- The numeric values `Statistics::print_stats` (stats.rs lines 41–70)
interpolates into the rate and percentage lines.  `elapsedSecs` is
`self.start_time.elapsed().as_secs_f64()`.  The latency lines come from
the histogram and are neither rates nor percentages, so they are not
carried here. -/
structure Report where
  requestsPerSec : FVal
  transferPerSecMB : FVal
  successRatePct : FVal
  errorsPct : FVal
  errorsCount : Nat
  deriving Repr, DecidableEq

/-- `Statistics::print_stats`: the success rate guards `requests > 0`,
the Errors percentage divides by `requests` unguarded. -/
def print_stats (s : Statistics) (elapsedSecs : ℚ) : Report :=
  { requestsPerSec := fdiv s.requests elapsedSecs
    transferPerSecMB := (fdiv s.bytes elapsedSecs).scale (1 / (1024 * 1024))
    successRatePct :=
      if s.requests > 0 then (fdiv s.success s.requests).scale 100
      else .num 0
    errorsPct := (fdiv s.errors s.requests).scale 100
    errorsCount := s.errors }

/-! ### Worker reduce and report (src/worker.rs lines 100–135) -/

/-- Running totals summed across driver tallies in `Worker::run`. -/
structure WorkerTotals where
  total_requests : Nat
  total_successes : Nat
  total_errors : Nat
  total_bytes : Nat
  total_latencyNanos : Nat
  deriving Repr, DecidableEq

def zeroTotals : WorkerTotals := ⟨0, 0, 0, 0, 0⟩

def addTally (w : WorkerTotals) (t : Tally) : WorkerTotals :=
  { total_requests := w.total_requests + t.requests
    total_successes := w.total_successes + t.successes
    total_errors := w.total_errors + t.errors
    total_bytes := w.total_bytes + t.total_bytes
    total_latencyNanos := w.total_latencyNanos + t.total_latencyNanos }

/-- The per-tally aggregator feed in `Worker::run` (lines 117–121): when
`requests > 0`, one `record_request` call with `successes > 0`,
`bytes / requests`, and the average latency
`Duration::from_nanos((latency.as_nanos() / requests as u128) as u64)`,
whose cast truncates to 64 bits. -/
def processTally (s : Statistics) (t : Tally) : Statistics :=
  if 0 < t.requests then
    record_request s (decide (0 < t.successes)) (t.total_bytes / t.requests)
      (t.total_latencyNanos / t.requests % U64_MOD)
  else s

/-- One step of the `for handle in handles` loop: a driver that returns
its tally is summed and fed to the aggregator; a failed join
(`if let Ok(Ok(..))` fails) leaves both accumulators untouched. -/
def awaitStep (acc : WorkerTotals × Statistics) : Option Tally → WorkerTotals × Statistics
  | none => acc
  | some t => (addTally acc.1 t, processTally acc.2 t)

/-- The whole await-and-reduce loop of `Worker::run` over the driver
join results. -/
def awaitDrivers (init : Statistics) (os : List (Option Tally)) :
    WorkerTotals × Statistics :=
  os.foldl awaitStep (zeroTotals, init)

/-- The Summary block printed by `Worker::run` (lines 124–133); the three
rate/latency/volume lines are printed only when `total_requests > 0`. -/
structure Summary where
  totalRequests : Nat
  successfulRequests : Nat
  failedRequests : Nat
  rateLines : Option (FVal × FVal × FVal)
  deriving Repr, DecidableEq

def mkSummary (w : WorkerTotals) : Summary :=
  { totalRequests := w.total_requests
    successfulRequests := w.total_successes
    failedRequests := w.total_errors
    rateLines :=
      if 0 < w.total_requests then
        some ((fdiv w.total_successes w.total_requests).scale 100,
              fdiv (w.total_latencyNanos / (1000000 : ℚ)) w.total_requests,
              .num (w.total_bytes / (1024 * 1024 : ℚ)))
      else none }

/-- Everything `Worker::run` prints after the drivers are awaited, as a
function of the driver join results (`none` = the driver task failed)
and the elapsed wall-clock seconds.  Total by construction: the run
reaches the report whatever the join results are. -/
def workerRun (os : List (Option Tally)) (elapsedSecs : ℚ) : Summary × Report :=
  let (w, s) := awaitDrivers Statistics.new os
  (mkSummary w, print_stats s elapsedSecs)

/-! ### Connection fan-out (src/main.rs lines 60–75, worker.rs 44–45) -/

/-- `let connections_per_thread = args.connections / args.threads;`. -/
def connectionsPerThread (connections threads : Nat) : Nat :=
  connections / threads

/-- Total drivers spawned: `threads` workers, each spawning
`connections_per_thread` driver tasks. -/
def totalDrivers (connections threads : Nat) : Nat :=
  threads * connectionsPerThread connections threads

/-- The list of driver join results a worker awaits: one entry per
spawned driver, produced by the scheduler. -/
def spawnOutcomes (n : Nat) (f : Nat → Option Tally) : List (Option Tally) :=
  (List.range n).map f

/-- The tally values visible at each check of `Instant::now() < end_time`
and at the driver's return: no attempt is in flight there. -/
def loopStates : Tally → List AttemptResult → List Tally
  | t, [] => [t]
  | t, r :: rs => t :: loopStates (updateTally t r) rs

/-! ### Helper lemmas on the driver loop -/

lemma updateTally_requests (t : Tally) (r : AttemptResult) :
    (updateTally t r).requests = t.requests + 1 := by
  cases r with
  | response status body lat =>
      by_cases h : isSuccessStatus status <;> simp [updateTally, h]
  | transportError lat => rfl
  | timeoutFired lat => rfl

lemma updateTally_outcomeSum (t : Tally) (r : AttemptResult) :
    (updateTally t r).successes + (updateTally t r).errors
      = t.successes + t.errors + 1 := by
  cases r with
  | response status body lat =>
      by_cases h : isSuccessStatus status <;> simp [updateTally, h] <;> omega
  | transportError lat => simp [updateTally]; omega
  | timeoutFired lat => simp [updateTally]; omega

lemma updateTally_inv (t : Tally) (r : AttemptResult)
    (h : t.requests = t.successes + t.errors) :
    (updateTally t r).requests
      = (updateTally t r).successes + (updateTally t r).errors := by
  rw [updateTally_requests, updateTally_outcomeSum, h]

lemma foldl_updateTally_inv (rs : List AttemptResult) (t : Tally)
    (h : t.requests = t.successes + t.errors) :
    (rs.foldl updateTally t).requests
      = (rs.foldl updateTally t).successes + (rs.foldl updateTally t).errors := by
  induction rs generalizing t with
  | nil => exact h
  | cons r rs ih => exact ih (updateTally t r) (updateTally_inv t r h)

lemma loopStates_inv (rs : List AttemptResult) (t : Tally)
    (h : t.requests = t.successes + t.errors) :
    ∀ u ∈ loopStates t rs, u.requests = u.successes + u.errors := by
  induction rs generalizing t with
  | nil =>
      intro u hu
      simp only [loopStates, List.mem_singleton] at hu
      exact hu ▸ h
  | cons r rs ih =>
      intro u hu
      simp only [loopStates, List.mem_cons] at hu
      rcases hu with rfl | hu
      · exact h
      · exact ih (updateTally t r) (updateTally_inv t r h) u hu

lemma yieldStates_pending (rs : List AttemptResult) (t : Tally)
    (h : t.requests = t.successes + t.errors) :
    ∀ u ∈ yieldStates t rs, u.requests = u.successes + u.errors + 1 := by
  induction rs generalizing t with
  | nil => intro u hu; simp [yieldStates] at hu
  | cons r rs ih =>
      intro u hu
      simp only [yieldStates, List.mem_cons] at hu
      rcases hu with rfl | hu
      · simpa using h
      · exact ih (updateTally t r) (updateTally_inv t r h) u hu

/-! ### Claims -/

/-- Claim C1 (code bug): the claim says every outcome, HttpError
included, adds its measured latency to `total_latency`, but the source's
non-2xx branch updates only `errors`.  At the failing input — a single
attempt completing with status 500 and latency 5 ms — `total_latency`
stays 0, while the same latency on the Success, TransportError and
Timeout outcomes is accumulated. -/
theorem C1_httpError_latency_dropped :
    (updateTally zeroTally (.response 500 (.collected 0) 5000000)).total_latencyNanos = 0 ∧
    (updateTally zeroTally (.response 500 (.collected 0) 5000000)).errors = 1 ∧
    (updateTally zeroTally (.response 200 (.collected 0) 5000000)).total_latencyNanos = 5000000 ∧
    (updateTally zeroTally (.transportError 5000000)).total_latencyNanos = 5000000 ∧
    (updateTally zeroTally (.timeoutFired 5000000)).total_latencyNanos = 5000000 := by
  refine ⟨rfl, rfl, rfl, rfl, rfl⟩

/-- Claim C2 (code bug): with `requests == 0` the report's rates and the
guarded success percentage are 0, but the Errors line divides
`errors / requests` unguarded: `0.0 / 0.0` is NaN, not the claimed
`0.00%`. -/
theorem C2_errors_pct_nan_at_zero :
    (print_stats Statistics.new 1).errorsPct = FVal.nan ∧
    (print_stats Statistics.new 1).requestsPerSec = FVal.num 0 ∧
    (print_stats Statistics.new 1).transferPerSecMB = FVal.num 0 ∧
    (print_stats Statistics.new 1).successRatePct = FVal.num 0 ∧
    (print_stats Statistics.new 1).errorsCount = 0 := by
  refine ⟨rfl, ?_, ?_, rfl, rfl⟩ <;>
    simp [print_stats, Statistics.new, fdiv, FVal.scale]

/-- Claim C3 counterexample: the invariant `requests == successes + errors`
fails at a suspension point — after one attempt is admitted, the driver
suspends on the request await with `requests = 1` while
`successes + errors = 0`, so it does not hold at every yield point of the
concrete one-attempt run. -/
theorem C3_counterexample :
    ¬ ∀ t ∈ yieldStates zeroTally [AttemptResult.timeoutFired 1000]
              ++ [runDriver [AttemptResult.timeoutFired 1000]],
        t.requests = t.successes + t.errors := by
  decide

/-- Claim C3 amended: `requests == successes + errors` holds at every
loop-admission check and at the driver's return point; at the suspension
points inside an attempt (request await, body-collect await) the in-flight
attempt is already counted, so `requests == successes + errors + 1`
there. -/
theorem C3_invariant_at_loop_head_and_return (rs : List AttemptResult) :
    (runDriver rs).requests = (runDriver rs).successes + (runDriver rs).errors ∧
    (∀ t ∈ loopStates zeroTally rs, t.requests = t.successes + t.errors) ∧
    (∀ t ∈ yieldStates zeroTally rs, t.requests = t.successes + t.errors + 1) := by
  exact ⟨foldl_updateTally_inv rs zeroTally rfl,
         loopStates_inv rs zeroTally rfl,
         yieldStates_pending rs zeroTally rfl⟩

/-- Claim C3 witness: the amended invariant instantiated on a concrete
one-attempt run, the loop-head membership hypothesis discharged at the
initial state. -/
theorem C3_invariant_witness :
    ((runDriver [AttemptResult.transportError 5]).requests
        = (runDriver [AttemptResult.transportError 5]).successes
          + (runDriver [AttemptResult.transportError 5]).errors) ∧
    zeroTally.requests = zeroTally.successes + zeroTally.errors :=
  ⟨(C3_invariant_at_loop_head_and_return [AttemptResult.transportError 5]).1,
   (C3_invariant_at_loop_head_and_return [AttemptResult.transportError 5]).2.1
     zeroTally (by decide)⟩

/-- Claim C4: awaiting a driver that returned a tally with
`requests > 0` feeds exactly one record into the aggregator —
`success = (successes > 0)`, `bytes = total_bytes / requests` (integer
division), `latency = total_latency / requests` (exact whenever the
average fits in 64 bits, which the truncating cast then leaves intact) —
and a tally with `requests = 0` feeds none. -/
theorem C4_one_synthetic_record_per_tally (init : Statistics) (t : Tally)
    (hfit : t.total_latencyNanos / t.requests < U64_MOD) :
    (0 < t.requests →
      (awaitDrivers init [some t]).2
          = record_request init (decide (0 < t.successes))
              (t.total_bytes / t.requests) (t.total_latencyNanos / t.requests) ∧
      ((awaitDrivers init [some t]).2).requests = init.requests + 1) ∧
    (t.requests = 0 → (awaitDrivers init [some t]).2 = init) := by
  constructor
  · intro hreq
    have hmod : t.total_latencyNanos / t.requests % U64_MOD
        = t.total_latencyNanos / t.requests := Nat.mod_eq_of_lt hfit
    constructor
    · simp [awaitDrivers, awaitStep, processTally, hreq, hmod]
    · simp only [awaitDrivers, List.foldl_cons, List.foldl_nil, awaitStep,
        processTally, hreq, if_true, record_request]
      split <;> rfl
  · intro hreq
    simp [awaitDrivers, awaitStep, processTally, hreq]

/-- Claim C4 witness: a concrete tally with two requests, one success. -/
theorem C4_one_synthetic_record_witness :
    ((0 < (2 : Nat) →
      (awaitDrivers Statistics.new [some ⟨2, 1, 1, 10, 1000⟩]).2
          = record_request Statistics.new (decide (0 < (1 : Nat))) (10 / 2) (1000 / 2) ∧
      ((awaitDrivers Statistics.new [some ⟨2, 1, 1, 10, 1000⟩]).2).requests
          = Statistics.new.requests + 1) ∧
    ((2 : Nat) = 0 → (awaitDrivers Statistics.new [some ⟨2, 1, 1, 10, 1000⟩]).2
          = Statistics.new)) :=
  C4_one_synthetic_record_per_tally Statistics.new ⟨2, 1, 1, 10, 1000⟩ (by decide)

/-- Claim C5: `record_request` increments `requests` by 1 unconditionally;
on `success = true` it increments `successes`, adds `bytes` and records
the latency's microsecond count into the histogram, leaving `errors`
unchanged; on `success = false` it increments only `errors`, leaving the
histogram, `bytes` and `successes` unchanged. -/
theorem C5_record_request_updates (s : Statistics) (b : Bool)
    (bytes latNanos : Nat) :
    (record_request s b bytes latNanos).requests = s.requests + 1 ∧
    (b = true →
      (record_request s b bytes latNanos).success = s.success + 1 ∧
      (record_request s b bytes latNanos).bytes = s.bytes + bytes ∧
      (record_request s b bytes latNanos).histogram
          = s.histogram ++ [latNanos / 1000 % U64_MOD] ∧
      (record_request s b bytes latNanos).errors = s.errors) ∧
    (b = false →
      (record_request s b bytes latNanos).errors = s.errors + 1 ∧
      (record_request s b bytes latNanos).histogram = s.histogram ∧
      (record_request s b bytes latNanos).bytes = s.bytes ∧
      (record_request s b bytes latNanos).success = s.success) := by
  cases b <;> simp [record_request]

/-- Claim C5 witness: both branches evaluated on concrete calls. -/
theorem C5_record_request_witness :
    (record_request Statistics.new true 7 2000000).success = 1 ∧
    (record_request Statistics.new false 7 2000000).errors = 1 :=
  ⟨((C5_record_request_updates Statistics.new true 7 2000000).2.1 rfl).1,
   ((C5_record_request_updates Statistics.new false 7 2000000).2.2 rfl).1⟩

/-- Claim C6: `total_bytes` accumulates only on Success outcomes — a
non-Success attempt leaves it unchanged, and a run whose attempts are all
HttpError, TransportError or Timeout ends with `total_bytes = 0`. -/
theorem C6_bytes_only_on_success (t : Tally) (r : AttemptResult)
    (rs : List AttemptResult) :
    (r.isSuccess = false → (updateTally t r).total_bytes = t.total_bytes) ∧
    ((∀ a ∈ rs, a.isSuccess = false) → (runDriver rs).total_bytes = 0) := by
  have step : ∀ (u : Tally) (a : AttemptResult), a.isSuccess = false →
      (updateTally u a).total_bytes = u.total_bytes := by
    intro u a ha
    cases a with
    | response status body lat =>
        simp only [AttemptResult.isSuccess] at ha
        simp [updateTally, ha]
    | transportError lat => rfl
    | timeoutFired lat => rfl
  refine ⟨step t r, fun hall => ?_⟩
  have fold : ∀ (l : List AttemptResult) (u : Tally),
      (∀ a ∈ l, a.isSuccess = false) →
      (l.foldl updateTally u).total_bytes = u.total_bytes := by
    intro l
    induction l with
    | nil => intro u _; rfl
    | cons a l ih =>
        intro u h
        rw [List.foldl_cons, ih (updateTally u a) (fun x hx => h x (List.mem_cons_of_mem a hx)),
            step u a (h a (List.mem_cons_self a l))]
  exact fold rs zeroTally hall

/-- Claim C6 witness: a run of one HttpError with a 9-byte body, one
transport error and one timeout ends with zero bytes. -/
theorem C6_bytes_only_on_success_witness :
    (runDriver [AttemptResult.response 500 (.collected 9) 10,
                AttemptResult.transportError 20,
                AttemptResult.timeoutFired 30]).total_bytes = 0 :=
  (C6_bytes_only_on_success zeroTally (AttemptResult.timeoutFired 30)
      [AttemptResult.response 500 (.collected 9) 10,
       AttemptResult.transportError 20,
       AttemptResult.timeoutFired 30]).2 (by decide)

/-- Claim C7: a 2xx response whose body drain fails is still classified
as a Success — `successes` is incremented, the measured latency is added,
and `total_bytes` gains exactly 0. -/
theorem C7_drain_error_keeps_status (t : Tally) (status lat : Nat)
    (h : isSuccessStatus status = true) :
    (updateTally t (.response status .drainError lat)).requests = t.requests + 1 ∧
    (updateTally t (.response status .drainError lat)).successes = t.successes + 1 ∧
    (updateTally t (.response status .drainError lat)).total_bytes = t.total_bytes ∧
    (updateTally t (.response status .drainError lat)).errors = t.errors ∧
    (updateTally t (.response status .drainError lat)).total_latencyNanos
        = t.total_latencyNanos + lat := by
  simp [updateTally, h, BodyResult.byteLen]

/-- Claim C7 witness: a 200 response with a body-drain error. -/
theorem C7_drain_error_witness :
    (updateTally zeroTally (.response 200 .drainError 42)).successes = 1 ∧
    (updateTally zeroTally (.response 200 .drainError 42)).total_bytes = 0 :=
  ⟨(C7_drain_error_keeps_status zeroTally 200 42 (by decide)).2.1,
   (C7_drain_error_keeps_status zeroTally 200 42 (by decide)).2.2.1⟩

lemma foldl_awaitStep_filterMap (os : List (Option Tally))
    (acc : WorkerTotals × Statistics) :
    os.foldl awaitStep acc
      = ((os.filterMap id).map some).foldl awaitStep acc := by
  induction os generalizing acc with
  | nil => rfl
  | cons o os ih =>
      cases o with
      | none => simpa [awaitStep] using ih acc
      | some t => simpa [awaitStep] using ih (addTally acc.1 t, processTally acc.2 t)

/-- Claim C8: a driver whose join fails contributes nothing — the worker's
totals, aggregator records, summary and report are exactly those computed
from the drivers that did return a tally, and the run still reaches the
report (workerRun is total). -/
theorem C8_failed_driver_contributes_nothing (os : List (Option Tally))
    (elapsedSecs : ℚ) :
    workerRun (none :: os) elapsedSecs = workerRun os elapsedSecs ∧
    workerRun os elapsedSecs
      = workerRun ((os.filterMap id).map some) elapsedSecs := by
  constructor
  · rfl
  · unfold workerRun awaitDrivers
    rw [foldl_awaitStep_filterMap]

/-- Claim C9: every worker is configured with `⌊C/T⌋` drivers, the total
spawned across the `T` workers is `T·⌊C/T⌋`, and exactly the remainder
`C mod T` connections are dropped. -/
theorem C9_floor_division_drivers (C T : Nat) (_hT : 0 < T) :
    connectionsPerThread C T = C / T ∧
    totalDrivers C T = T * (C / T) ∧
    totalDrivers C T + C % T = C := by
  refine ⟨rfl, rfl, ?_⟩
  exact Nat.div_add_mod C T

/-- Claim C9 witness: 10 connections over 3 threads give 3 drivers per
worker, 9 in total, 1 dropped. -/
theorem C9_floor_division_witness :
    connectionsPerThread 10 3 = 10 / 3 ∧
    totalDrivers 10 3 = 3 * (10 / 3) ∧
    totalDrivers 10 3 + 10 % 3 = 10 :=
  C9_floor_division_drivers 10 3 (by decide)

/-- Claim C10: with `connections < threads` the floor division yields 0
drivers per worker, each worker awaits an empty driver list, and the run
completes normally with a summary showing `total_requests = 0` (and no
rate lines) instead of rejecting the configuration. -/
theorem C10_fewer_connections_than_threads (C T : Nat)
    (f : Nat → Option Tally) (elapsedSecs : ℚ) (hCT : C < T) :
    connectionsPerThread C T = 0 ∧
    spawnOutcomes (connectionsPerThread C T) f = [] ∧
    (workerRun (spawnOutcomes (connectionsPerThread C T) f) elapsedSecs).1.totalRequests = 0 ∧
    (workerRun (spawnOutcomes (connectionsPerThread C T) f) elapsedSecs).1.rateLines = none := by
  have h0 : connectionsPerThread C T = 0 := Nat.div_eq_of_lt hCT
  refine ⟨h0, ?_, ?_, ?_⟩ <;>
    simp [h0, spawnOutcomes, workerRun, awaitDrivers, mkSummary, zeroTotals]

/-- Claim C10 witness: 2 connections over 5 threads. -/
theorem C10_fewer_connections_witness :
    connectionsPerThread 2 5 = 0 ∧
    spawnOutcomes (connectionsPerThread 2 5) (fun _ => none) = [] ∧
    (workerRun (spawnOutcomes (connectionsPerThread 2 5) (fun _ => none)) 1).1.totalRequests = 0 ∧
    (workerRun (spawnOutcomes (connectionsPerThread 2 5) (fun _ => none)) 1).1.rateLines = none :=
  C10_fewer_connections_than_threads 2 5 (fun _ => none) 1 (by decide)

end RustWrk
